import Mathlib

/-!
Verification of the static file server in `src/server.py`.

The program is a thin wrapper around Python's `http.server`: it updates the
handler's extension-to-MIME map so that `.js` serves as
`application/javascript`, then runs a bind-retry loop: it tries to bind a TCP
listener on the requested port; if the bind raises `OSError` with `errno == 48`
(address already in use) it increments the port, prints a diagnostic and
retries; any other `OSError` is re-raised to the outer handler, which prints a
fatal message and exits with status 1; a `KeyboardInterrupt` while serving
prints a shutdown message and exits with status 0.

We embed the control flow as an executable function over an abstract
environment assigning to each port the outcome of the bind/serve attempt on
that port.  The run is driven by fuel (a bound on loop iterations) since the
Python loop is unbounded.  The run records the printed lines, the final
outcome, the ports attempted in order, the port finally bound (if any) and
whether the bound listener was closed again.
-/

/-- Outcome of one iteration of the bind loop on a given port, as seen by
`start_server`: either the `TCPServer` constructor succeeds (and
`serve_forever` then either blocks forever or is ended by a
`KeyboardInterrupt`), or the constructor raises `OSError` with some errno and
message. -/
inductive BindResult where
  | bound (interrupted : Bool)
  | osError (errnoVal : Nat) (msg : String)
deriving DecidableEq, Repr

/-- Final outcome of a run of `start_server`. -/
inductive RunOutcome where
  | serving (port : Nat)
  | exited (status : Nat)
  | outOfFuel
deriving DecidableEq, Repr

/-- Observable trace of a run: the lines printed to stdout in order, the final
outcome, the ports on which a bind was attempted in order, the port finally
bound (if any), and whether the bound listener was closed again (the `with`
block closes it when `serve_forever` is unwound by the interrupt). -/
structure RunResult where
  output : List String
  outcome : RunOutcome
  attempts : List Nat
  boundPort : Option Nat
  listenerClosed : Bool
deriving DecidableEq, Repr

/-- The line `print(f"Server started at http://localhost:{port}")` of
`src/server.py`. -/
def startedMsg (port : Nat) : String :=
  "Server started at http://localhost:" ++ toString port

/-- The line `print(f"Port {port-1} is in use, trying port {port}")` of
`src/server.py`, printed after the increment, so with the old port first. -/
def retryMsg (oldPort newPort : Nat) : String :=
  "Port " ++ toString oldPort ++ " is in use, trying port " ++ toString newPort

/-- The line `print("\nShutting down server...")` of `src/server.py`. -/
def shutdownMsg : String := "\nShutting down server..."

/-- The line `print(f"Error starting server: {e}")` of `src/server.py`. -/
def fatalMsg (msg : String) : String := "Error starting server: " ++ msg

/-- Does the bind outcome correspond to the branch `e.errno == 48` of
`src/server.py` (address already in use)? -/
def isAddrInUse (r : BindResult) : Bool :=
  match r with
  | .bound _ => false
  | .osError e _ => e == 48

/-- The `while True:` bind-retry loop of `start_server` (`src/server.py`
lines 13-26), with the surrounding `except Exception` handler (lines 27-29)
folded in: on a successful bind the startup line is printed and the server
serves until interrupted (shutdown line, `sys.exit(0)`); on `OSError` with
errno 48 the port is incremented, the diagnostic is printed and the loop
retries; on any other `OSError` the exception is re-raised and the outer
handler prints the fatal line and calls `sys.exit(1)`. -/
def bindLoop (env : Nat → BindResult) : Nat → Nat → RunResult
  | 0, _ =>
    { output := [], outcome := .outOfFuel, attempts := [],
      boundPort := none, listenerClosed := false }
  | fuel+1, port =>
    match env port with
    | .bound interrupted =>
      if interrupted then
        { output := [startedMsg port, shutdownMsg], outcome := .exited 0,
          attempts := [port], boundPort := some port, listenerClosed := true }
      else
        { output := [startedMsg port], outcome := .serving port,
          attempts := [port], boundPort := some port, listenerClosed := false }
    | .osError e msg =>
      if e == 48 then
        let rest := bindLoop env fuel (port+1)
        { output := retryMsg port (port+1) :: rest.output,
          outcome := rest.outcome,
          attempts := port :: rest.attempts,
          boundPort := rest.boundPort,
          listenerClosed := rest.listenerClosed }
      else
        { output := [fatalMsg msg], outcome := .exited 1,
          attempts := [port], boundPort := none, listenerClosed := false }

/-- An extension-to-MIME-type map, as the handler's `extensions_map` dict. -/
def ExtMap : Type := String → Option String

/-- One-key dict update, the effect of
`handler.extensions_map.update({'.js': 'application/javascript'})` on the map:
the given key now maps to the given value, all other keys are unchanged. -/
def updateExt (m : ExtMap) (k v : String) : ExtMap :=
  fun x => if x = k then some v else m x

/-- The configuration step of `start_server` (`src/server.py` lines 8-11):
the handler's class-level `extensions_map` is updated so `.js` maps to
`application/javascript`. -/
def configureHandler (m : ExtMap) : ExtMap :=
  updateExt m ".js" "application/javascript"

/-- A run of `start_server(port)` over a starting extensions map `m0` (the
platform default), a bind environment and a fuel bound: the handler's map is
configured first, then the bind loop runs.  The configured map is the single
class-level map consulted for every request served during the run. -/
structure ServerRun where
  handlerMap : ExtMap
  run : RunResult

/-- `start_server` of `src/server.py` (lines 6-29). -/
def start_server (m0 : ExtMap) (env : Nat → BindResult) (fuel port : Nat) :
    ServerRun :=
  { handlerMap := configureHandler m0, run := bindLoop env fuel port }

/-- The default value of the `port` parameter of `start_server`
(`src/server.py` line 6: `def start_server(port=8000)`). -/
def defaultPort : Nat := 8000

/-- The `if __name__ == "__main__": start_server()` entry point
(`src/server.py` lines 31-32): `start_server` is invoked with no argument, so
with its default port parameter. -/
def mainEntry (m0 : ExtMap) (env : Nat → BindResult) (fuel : Nat) : ServerRun :=
  start_server m0 env fuel defaultPort

/-- Modelled from the spec: the request handler
(`http.server.SimpleHTTPRequestHandler`, standard-library code not under
`src/`) derives the response `Content-Type` from the file extension via the
extensions map, falling back to a generic binary type for unknown extensions
("fall back to a generic binary/octet type for unknown extensions"). -/
def guess_type (m : ExtMap) (ext : String) : String :=
  match m ext with
  | some t => t
  | none => "application/octet-stream"

/-- The retry diagnostics printed when the `d` consecutive ports starting at
`P` are all busy: one line per busy port, naming it and its successor. -/
def retryLines (P d : Nat) : List String :=
  (List.range' P d).map (fun q => retryMsg q (q+1))

/-- Environment where every port is busy: each bind raises OSError errno 48. -/
def envAllBusy : Nat → BindResult := fun _ => .osError 48 "busy"

/-- Environment where every bind raises OSError errno 13 (permission denied). -/
def envPermDenied : Nat → BindResult := fun _ => .osError 13 "denied"

/-- Environment where the bind succeeds and the server is then interrupted. -/
def envInterrupt : Nat → BindResult := fun _ => .bound true

/-- Environment where the bind succeeds and the server serves forever. -/
def envFree : Nat → BindResult := fun _ => .bound false

/-- An empty starting extensions map. -/
def m0Empty : ExtMap := fun _ => none

/-- Claim C1: when a bind attempt in `start_server` fails because the address
is already in use (OSError with errno 48), the run prints the diagnostic
`Port <old_port> is in use, trying port <new_port>` naming the busy port and
the next port to try, increments the port by 1, and retries the bind on the
new port, continuing with whatever that retry produces. -/
theorem retry_on_addr_in_use (env : Nat → BindResult) (fuel port : Nat)
    (msg : String) (h : env port = .osError 48 msg) :
    bindLoop env (fuel+1) port =
      { output := ("Port " ++ toString port ++ " is in use, trying port "
            ++ toString (port+1)) :: (bindLoop env fuel (port+1)).output,
        outcome := (bindLoop env fuel (port+1)).outcome,
        attempts := port :: (bindLoop env fuel (port+1)).attempts,
        boundPort := (bindLoop env fuel (port+1)).boundPort,
        listenerClosed := (bindLoop env fuel (port+1)).listenerClosed } := by
  simp [bindLoop, h, retryMsg]

/-- Witness for C1 at the all-busy environment, starting port 8000. -/
theorem retry_on_addr_in_use_witness :
    bindLoop envAllBusy 2 8000 =
      { output := ("Port " ++ toString 8000 ++ " is in use, trying port "
            ++ toString 8001) :: (bindLoop envAllBusy 1 8001).output,
        outcome := (bindLoop envAllBusy 1 8001).outcome,
        attempts := 8000 :: (bindLoop envAllBusy 1 8001).attempts,
        boundPort := (bindLoop envAllBusy 1 8001).boundPort,
        listenerClosed := (bindLoop envAllBusy 1 8001).listenerClosed } :=
  retry_on_addr_in_use envAllBusy 1 8000 "busy" rfl

/-- Claim C2: `start_server` classifies a bind failure as address-in-use by
comparing the OSError errno to the literal 48; every OSError during listener
creation whose errno is not exactly 48 is re-raised to the outer handler, the
fatal line `Error starting server: <message>` is printed, and the run exits
with status 1 instead of retrying on the next port. -/
theorem fatal_on_other_errno (env : Nat → BindResult) (fuel port e : Nat)
    (msg : String) (h : env port = .osError e msg) (hne : e ≠ 48) :
    bindLoop env (fuel+1) port =
      { output := ["Error starting server: " ++ msg], outcome := .exited 1,
        attempts := [port], boundPort := none, listenerClosed := false } := by
  have hb : (e == 48) = false := by simpa using hne
  simp [bindLoop, h, hb, fatalMsg]

/-- Witness for C2 at errno 13 (not 48), starting port 8000. -/
theorem fatal_on_other_errno_witness :
    bindLoop envPermDenied 1 8000 =
      { output := ["Error starting server: " ++ "denied"],
        outcome := .exited 1, attempts := [8000],
        boundPort := none, listenerClosed := false } :=
  fatal_on_other_errno envPermDenied 0 8000 13 "denied" rfl (by decide)

/-- Claim C4: when the process receives an interrupt while the server is
serving, the run prints the shutdown line `\nShutting down server...`, the
listener is closed, and the run exits with status 0, never through the fatal
path with status 1. -/
theorem interrupt_clean_shutdown (m0 : ExtMap) (env : Nat → BindResult)
    (fuel port : Nat) (h : env port = .bound true) :
    (start_server m0 env (fuel+1) port).run =
      { output := [startedMsg port, "\nShutting down server..."],
        outcome := .exited 0, attempts := [port],
        boundPort := some port, listenerClosed := true } := by
  simp [start_server, bindLoop, h, shutdownMsg]

/-- Witness for C4: interrupt arriving while serving on port 8000. -/
theorem interrupt_clean_shutdown_witness :
    (start_server m0Empty envInterrupt 1 8000).run =
      { output := [startedMsg 8000, "\nShutting down server..."],
        outcome := .exited 0, attempts := [8000],
        boundPort := some 8000, listenerClosed := true } :=
  interrupt_clean_shutdown m0Empty envInterrupt 0 8000 rfl

/-- Claim C5: for every startup failure other than address-in-use (as the code
classifies it, errno different from 48, e.g. permission denied binding a
privileged port), `start_server` prints `Error starting server: <message>`
and the run exits with status 1. -/
theorem fatal_startup_error (m0 : ExtMap) (env : Nat → BindResult)
    (fuel port e : Nat) (msg : String)
    (h : env port = .osError e msg) (hne : isAddrInUse (env port) = false) :
    (start_server m0 env (fuel+1) port).run.output = [fatalMsg msg] ∧
    (start_server m0 env (fuel+1) port).run.outcome = .exited 1 := by
  rw [h] at hne
  simp [isAddrInUse] at hne
  have hb : (e == 48) = false := by simpa using hne
  constructor <;> simp [start_server, bindLoop, h, hb]

/-- Witness for C5 at errno 13 (permission denied), starting port 80. -/
theorem fatal_startup_error_witness :
    (start_server m0Empty envPermDenied 1 80).run.output
        = [fatalMsg "denied"] ∧
    (start_server m0Empty envPermDenied 1 80).run.outcome
        = .exited 1 :=
  fatal_startup_error m0Empty envPermDenied 0 80 13 "denied" rfl (by decide)

/-- Claim C7: for every port `P` on which the bind succeeds, the run prints
exactly `Server started at http://localhost:<P>` with `P` the port actually
bound, and then enters the serve loop. -/
theorem started_message_on_bind (env : Nat → BindResult) (fuel P : Nat)
    (h : env P = .bound false) :
    bindLoop env (fuel+1) P =
      { output := ["Server started at http://localhost:" ++ toString P],
        outcome := .serving P, attempts := [P],
        boundPort := some P, listenerClosed := false } := by
  simp [bindLoop, h, startedMsg]

/-- Witness for C7: free port 8000. -/
theorem started_message_on_bind_witness :
    bindLoop envFree 1 8000 =
      { output := ["Server started at http://localhost:" ++ toString 8000],
        outcome := .serving 8000, attempts := [8000],
        boundPort := some 8000, listenerClosed := false } :=
  started_message_on_bind envFree 0 8000 rfl

/-- Unfolding of `retryLines` by one busy port. -/
theorem retryLines_succ (P d : Nat) :
    retryLines P (d+1) = retryMsg P (P+1) :: retryLines (P+1) d := by
  simp [retryLines, List.range'_succ]

/-- Running the bind loop from port `P` when the `d` ports `P, …, P+d-1` are
all busy and the bind on `P+d` succeeds: one retry diagnostic per busy port,
ports attempted in order with no gaps, and the server binds `P+d`. -/
theorem bindLoop_busy_then_bound (env : Nat → BindResult) (b : Bool) :
    ∀ d P fuel, (∀ i, i < d → isAddrInUse (env (P+i)) = true) →
      env (P+d) = .bound b → d < fuel →
      bindLoop env fuel P =
        { output := retryLines P d
              ++ startedMsg (P+d) :: (if b then [shutdownMsg] else []),
          outcome := if b then .exited 0 else .serving (P+d),
          attempts := List.range' P (d+1),
          boundPort := some (P+d),
          listenerClosed := b } := by
  intro d
  induction d with
  | zero =>
    intro P fuel _ hfree hfuel
    match fuel, hfuel with
    | fuel+1, _ =>
      rw [Nat.add_zero] at hfree
      cases b <;>
        simp [bindLoop, hfree, retryLines, List.range'_succ]
  | succ d ih =>
    intro P fuel hbusy hfree hfuel
    match fuel, hfuel with
    | fuel+1, hfuel =>
      have h0 : isAddrInUse (env P) = true := by
        simpa using hbusy 0 (Nat.succ_pos d)
      cases hP : env P with
      | bound c =>
        rw [hP] at h0
        simp [isAddrInUse] at h0
      | osError e msg =>
        rw [hP] at h0
        have he : e = 48 := by simpa [isAddrInUse] using h0
        subst he
        have hshift : P + (d+1) = (P+1) + d := by omega
        have hrest := ih (P+1) fuel
          (fun i hi => by
            have h1 := hbusy (i+1) (Nat.succ_lt_succ hi)
            have h2 : P + (i+1) = (P+1) + i := by omega
            rwa [h2] at h1)
          (by rw [← hshift]; exact hfree)
          (Nat.lt_of_succ_lt_succ hfuel)
        rw [hshift]
        have h48 : ((48 : Nat) == 48) = true := by decide
        simp only [bindLoop, hP, h48, if_true, hrest, retryLines_succ,
          List.range'_succ]
        simp

/-- Environment where every port below `Q` is busy and `Q` is free. -/
def envBusyBelow (Q : Nat) : Nat → BindResult :=
  fun p => if p < Q then .osError 48 "busy" else .bound false

/-- Claim C6: if the starting port `P` is busy, the server tries `P+1`, `P+2`,
… until the free port `Q` is found and binds it; the busy ports named in the
retry diagnostics are exactly `P, P+1, …, Q-1` in order, each diagnostic
naming the busy port and its successor, so the named ports increase by
exactly 1 each step with no port skipped between `P` and the port finally
bound. -/
theorem sequential_port_scan (env : Nat → BindResult) (b : Bool)
    (P Q fuel : Nat) (hPQ : P ≤ Q)
    (hbusy : ∀ q, P ≤ q → q < Q → isAddrInUse (env q) = true)
    (hfree : env Q = .bound b) (hfuel : Q - P < fuel) :
    (bindLoop env fuel P).boundPort = some Q ∧
    (bindLoop env fuel P).attempts = List.range' P (Q - P + 1) ∧
    (bindLoop env fuel P).output =
      (List.range' P (Q - P)).map (fun q => retryMsg q (q+1))
        ++ startedMsg Q :: (if b then [shutdownMsg] else []) := by
  have hd : P + (Q - P) = Q := by omega
  have h := bindLoop_busy_then_bound env b (Q - P) P fuel
    (fun i hi => hbusy (P+i) (Nat.le_add_right P i) (by omega))
    (by rwa [hd]) hfuel
  rw [h]
  simp [retryLines, hd]

/-- Witness for C6: ports 8000 and 8001 busy, 8002 free. -/
theorem sequential_port_scan_witness :
    (bindLoop (envBusyBelow 8002) 3 8000).boundPort = some 8002 ∧
    (bindLoop (envBusyBelow 8002) 3 8000).attempts
        = List.range' 8000 (8002 - 8000 + 1) ∧
    (bindLoop (envBusyBelow 8002) 3 8000).output =
      (List.range' 8000 (8002 - 8000)).map (fun q => retryMsg q (q+1))
        ++ startedMsg 8002 :: (if false then [shutdownMsg] else []) :=
  sequential_port_scan (envBusyBelow 8002) false 8000 8002 3 (by omega)
    (by
      intro q h1 h2
      simp [envBusyBelow, isAddrInUse, h2])
    (by norm_num [envBusyBelow]) (by omega)

/-- Claim C8: the port changes only inside the bind-retry loop and only on an
address-in-use failure, and a successful bind is the last attempt: a run from
`P` whose bound port is `Q` attempted exactly `P, P+1, …, Q` in that order,
every attempted port before `Q` failed as address-in-use, and `Q` is the last
port attempted, so the port never changes after the successful bind. -/
theorem port_stable_after_bind (env : Nat → BindResult) :
    ∀ fuel P Q, (bindLoop env fuel P).boundPort = some Q →
      P ≤ Q ∧ (∀ q, P ≤ q → q < Q → isAddrInUse (env q) = true) ∧
      (bindLoop env fuel P).attempts = List.range' P (Q - P + 1) ∧
      (bindLoop env fuel P).attempts.getLast? = some Q := by
  intro fuel
  induction fuel with
  | zero =>
    intro P Q h
    simp [bindLoop] at h
  | succ fuel ih =>
    intro P Q h
    cases hP : env P with
    | bound c =>
      have hQ : P = Q := by
        cases c <;> simpa [bindLoop, hP] using h
      subst hQ
      cases c <;>
        refine ⟨Nat.le_refl P,
          fun q h1 h2 => ((Nat.lt_irrefl P) (Nat.lt_of_le_of_lt h1 h2)).elim,
          ?_, ?_⟩ <;>
        simp [bindLoop, hP, Nat.sub_self, List.range'_succ]
    | osError e msg =>
      by_cases he : (e == 48) = true
      · have hrec : (bindLoop env fuel (P+1)).boundPort = some Q := by
          simpa [bindLoop, hP, he] using h
        obtain ⟨h1, h2, h3, _⟩ := ih (P+1) Q hrec
        have hPQ : P ≤ Q := by omega
        have hlen : Q - P + 1 = (Q - (P+1) + 1) + 1 := by omega
        have hA : (bindLoop env (fuel+1) P).attempts
            = List.range' P (Q - P + 1) := by
          rw [hlen, List.range'_succ]
          simpa [bindLoop, hP, he] using h3
        refine ⟨hPQ, ?_, hA, ?_⟩
        · intro q hq1 hq2
          rcases Nat.eq_or_lt_of_le hq1 with rfl | hlt
          · rw [hP]
            simpa [isAddrInUse] using he
          · exact h2 q hlt hq2
        · rw [hA, List.getLast?_range']
          have hz : ¬ (Q - P + 1 = 0) := by omega
          rw [if_neg hz]
          congr 1
          omega
      · rw [Bool.not_eq_true] at he
        simp [bindLoop, hP, he] at h

/-- Witness for C8: the run over the environment with 8000 and 8001 busy and
8002 free binds 8002, having attempted exactly 8000, 8001, 8002. -/
theorem port_stable_after_bind_witness :
    8000 ≤ 8002 ∧
    (∀ q, 8000 ≤ q → q < 8002 →
      isAddrInUse (envBusyBelow 8002 q) = true) ∧
    (bindLoop (envBusyBelow 8002) 3 8000).attempts
        = List.range' 8000 (8002 - 8000 + 1) ∧
    (bindLoop (envBusyBelow 8002) 3 8000).attempts.getLast? = some 8002 :=
  port_stable_after_bind (envBusyBelow 8002) 3 8000 8002 (by rfl)

/-- Claim C3: before serving any request, `start_server` configures the
handler's extension-to-MIME mapping so that `.js` maps to
`application/javascript`, overriding whatever the platform default map `m0`
held; consequently a request for a file with extension `.js` during the run
is answered with Content-Type `application/javascript` regardless of host
MIME defaults. -/
theorem js_mime_override (m0 : ExtMap) (env : Nat → BindResult)
    (fuel port : Nat) :
    (start_server m0 env fuel port).handlerMap ".js"
        = some "application/javascript" ∧
    guess_type (start_server m0 env fuel port).handlerMap ".js"
        = "application/javascript" := by
  constructor <;> rfl

/-- Claim C10: the MIME configuration step changes only the `.js` entry of
the handler's map: the run's handler map is exactly the one-key update of the
platform map `m0`, this single class-level map is the one used for the whole
run, `.js` now maps to `application/javascript`, and every extension other
than `.js` maps identically before and after. -/
theorem mime_update_frame (m0 : ExtMap) (env : Nat → BindResult)
    (fuel port : Nat) :
    (start_server m0 env fuel port).handlerMap = configureHandler m0 ∧
    configureHandler m0 ".js" = some "application/javascript" ∧
    ∀ ext, ext ≠ ".js" → configureHandler m0 ext = m0 ext := by
  refine ⟨rfl, rfl, ?_⟩
  intro ext hne
  simp [configureHandler, updateExt, hne]

/-- Witness for C10 at the extension `.css`, unchanged by the update. -/
theorem mime_update_frame_witness :
    configureHandler m0Empty ".css" = m0Empty ".css" :=
  (mime_update_frame m0Empty envFree 1 8000).2.2 ".css" (by decide)

/-- Claim C9: the module entry point invokes `start_server` with its default
port parameter, which is 8000, so the first bind attempt of the run is on
port 8000. -/
theorem default_port_first_attempt (m0 : ExtMap) (env : Nat → BindResult)
    (fuel : Nat) :
    mainEntry m0 env (fuel+1) = start_server m0 env (fuel+1) defaultPort ∧
    defaultPort = 8000 ∧
    (mainEntry m0 env (fuel+1)).run.attempts.head? = some 8000 := by
  refine ⟨rfl, rfl, ?_⟩
  show (bindLoop env (fuel+1) 8000).attempts.head? = some 8000
  cases h : env 8000 with
  | bound c => cases c <;> simp [bindLoop, h]
  | osError e msg =>
    by_cases he : (e == 48) = true
    · simp [bindLoop, h, he]
    · rw [Bool.not_eq_true] at he
      simp [bindLoop, h, he]
